import Mathlib

/-!
Verification of the kohya_ss launcher script (launcher.py) against its
natural-language specification.  Each Python routine relevant to the claims
is shallowly embedded as an executable Lean definition translated from the
source; the theorems below settle the claims.  Strings are modelled over the
ASCII subset actually used by the launcher.
-/

set_option maxRecDepth 8192

/- ===================================================================
   Configuration loading: launcher.py, load_config (lines 103-141)
   =================================================================== -/

/-- A YAML mapping as loaded from one configuration file.  The mapping is
represented by an association list in which the EARLIER entry for a key is the
effective one, because `List.lookup` returns the first match. -/
abbrev Cfg : Type := List (String × String)

/-- Python merge of two dicts in which entries of the second argument win on
conflicting keys (in the source, the accumulated data is listed second in the
dict-unpacking expression and hence wins).  In the lookup-list representation
the winning dict is placed first. -/
def pyDictUpdate (a b : Cfg) : Cfg := b ++ a

/-- One iteration of the merge loop in `load_config`: when the file was
missing, unreadable, or its YAML content was empty (falsy in Python), the
accumulated data is kept unchanged; otherwise the accumulated data is merged
over the file data, so the accumulated data wins on conflicting keys. -/
def load_config_step (acc : Cfg) (file : Option Cfg) : Cfg :=
  match file with
  | none => acc
  | some d => if d.isEmpty then acc else pyDictUpdate d acc

/-- launcher.py `load_config`: fold the discovered configuration files in
search-path order, then merge the explicitly specified file (if any) the same
way; return `none` when the final dict is empty (the source returns None for
falsy data).  `discovered` holds, for each fixed search-path location in
order, the loaded content (`none` when absent, unreadable or empty);
`explicit` plays the same role for the file given with the file flag. -/
def load_config (discovered : List (Option Cfg)) (explicit : Option Cfg) :
    Option Cfg :=
  let c := load_config_step (discovered.foldl load_config_step []) explicit
  if c.isEmpty then none else some c

/-- Effective value of an option key in the result of `load_config`. -/
def config_lookup (c : Option Cfg) (k : String) : Option String :=
  match c with
  | none => none
  | some d => d.lookup k

/- ===================================================================
   Python string and integer-conversion primitives
   =================================================================== -/

/-- ASCII whitespace as stripped by Python str.strip / int(). -/
def isPyWs (c : Char) : Bool :=
  decide (c.toNat = 32) || decide (c.toNat = 9) || decide (c.toNat = 10) ||
  decide (c.toNat = 13) || decide (c.toNat = 11) || decide (c.toNat = 12)

/-- ASCII decimal digit. -/
def isDigitC (c : Char) : Bool :=
  decide (48 ≤ c.toNat) && decide (c.toNat ≤ 57)

def digitVal (c : Char) : Nat := c.toNat - 48

/-- Remove leading and trailing whitespace from a character list. -/
def stripWs (l : List Char) : List Char :=
  ((l.dropWhile isPyWs).reverse.dropWhile isPyWs).reverse

/-- Digits of a Python integer literal after the first digit: a run of digits
in which a single underscore may appear between two digits. -/
def digitsCore (acc : Nat) : List Char → Option Nat
  | [] => some acc
  | c :: cs =>
    if c = '_' then
      match cs with
      | [] => none
      | d :: ds =>
        if isDigitC d then digitsCore (acc * 10 + digitVal d) ds else none
    else if isDigitC c then digitsCore (acc * 10 + digitVal c) cs
    else none

/-- The digit part of a Python int() literal: one digit followed by
`digitsCore`. -/
def parseDigitsPy : List Char → Option Nat
  | [] => none
  | c :: cs => if isDigitC c then digitsCore (digitVal c) cs else none

/-- Python `int(s)` on ASCII strings: strip surrounding whitespace, an
optional sign, then a digit run with optional single underscores between
digits; anything else raises ValueError (modelled as `none`). -/
def pyInt (s : String) : Option Int :=
  match stripWs s.data with
  | [] => none
  | c :: cs =>
    if c = '+' then (parseDigitsPy cs).map (fun n => (n : Int))
    else if c = '-' then (parseDigitsPy cs).map (fun n => -(n : Int))
    else (parseDigitsPy (c :: cs)).map (fun n => (n : Int))

/-- Value of a plain decimal digit string. -/
def natOfDigits (l : List Char) : Nat :=
  l.foldl (fun a c => a * 10 + digitVal c) 0

/- ===================================================================
   Verbosity parsing: launcher.py, CountOccurrencesAction.__call__
   (lines 172-191)
   =================================================================== -/

/-- Outcome of the custom argparse action for the verbosity option: either a
verbosity value is stored on the namespace, or the process logs an error and
exits with status 1. -/
inductive VerbosityOutcome
  | set (n : Int)
  | exitError
  deriving DecidableEq

/-- launcher.py `CountOccurrencesAction.__call__` on the value string: try
`int(values)` first; otherwise, when no character other than 'v' occurs, store
the count of 'v' in values plus one appended 'v'; otherwise error and exit 1.
A stored negative integer also errors and exits 1. -/
def countOccurrencesCall (values : String) : VerbosityOutcome :=
  match pyInt values with
  | some n => if n < 0 then .exitError else .set n
  | none =>
    if values.data.all (fun c => c == 'v') then
      let count := List.count 'v' (values ++ "v").data
      if (count : Int) < 0 then .exitError else .set (count : Int)
    else .exitError

/- ===================================================================
   Acquisition manager: launcher.py, update_kohya_ss (lines 677-917),
   get_latest_tag (lines 600-611)
   =================================================================== -/

/-- Bool test for pattern occurrence as a contiguous substring. -/
def containsSubstring (pat : List Char) : List Char → Bool
  | [] => pat.isEmpty
  | c :: cs => pat.isPrefixOf (c :: cs) || containsSubstring pat cs

/-- Python str.startswith. -/
def strStartsWith (s pat : String) : Bool := pat.data.isPrefixOf s.data

/-- Python str.endswith. -/
def strEndsWith (s pat : String) : Bool :=
  pat.data.reverse.isPrefixOf s.data.reverse

/-- Split a character list at every occurrence of the separator character
(Python str.split with a one-character separator). -/
def splitOnCharList (sep : Char) : List Char → List (List Char)
  | [] => [[]]
  | c :: cs =>
    if c = sep then [] :: splitOnCharList sep cs
    else
      match splitOnCharList sep cs with
      | [] => [[c]]
      | g :: gs => (c :: g) :: gs

/-- Python s.split of a string on the slash character. -/
def pySplitSlash (s : String) : List String :=
  (splitOnCharList '/' s.data).map String.mk

/-- Python str.rstrip with a set of characters: remove every trailing
character drawn from the set. -/
def pyRstrip (chars : List Char) (s : String) : String :=
  String.mk ((s.data.reverse.dropWhile (fun c => chars.contains c)).reverse)

/-- The characters before the first occurrence of "://", when present. -/
def schemeSplit : List Char → Option (List Char)
  | [] => none
  | c :: cs =>
    if "://".data.isPrefixOf (c :: cs) then some []
    else
      match schemeSplit cs with
      | none => none
      | some pre => some (c :: pre)

/-- The scheme part of a URL as produced by urlparse, simplified to URLs of
the form scheme://rest (the forms used by the launcher). -/
def urlScheme (s : String) : String :=
  match schemeSplit s.data with
  | none => ""
  | some pre => String.mk pre

/-- launcher.py `get_latest_tag`: the repository name is the last
slash-separated component of the source URL with all trailing characters
from the set of '.', 'g', 'i', 't' removed (str.rstrip with ".git"). -/
def repo_name_of (git_repo : String) : String :=
  pyRstrip ".git".data ((pySplitSlash git_repo).getLastD "")

/-- launcher.py `get_latest_tag`: the owner is the next-to-last
slash-separated component of the source URL. -/
def repo_owner_of (git_repo : String) : String :=
  let parts := pySplitSlash git_repo
  parts.getD (parts.length - 2) ""

/-- The release-API URL built by `get_latest_tag`. -/
def api_url_of (git_repo : String) : String :=
  "https://api.github.com/repos/" ++ repo_owner_of git_repo ++ "/"
    ++ repo_name_of git_repo ++ "/releases/latest"

/-- The archive download URL built in the fallback branch of
`update_kohya_ss`: the source URL is first rstrip-ed with ".git", then
rstrip-ed with "/", then the tag path is appended. -/
def download_url_of (git_repo tag : String) : String :=
  pyRstrip "/".data (pyRstrip ".git".data git_repo)
    ++ "/archive/refs/tags/" ++ tag ++ ".zip"

/-- Modelled from the claim wording (for comparison only): removing one
literal ".git" suffix when present. -/
def removeDotGitSuffix (name : String) : String :=
  if strEndsWith name ".git" then String.mk (name.data.take (name.data.length - 4))
  else name

/-- Outcome of an actual git pull or clone issued by the launcher: either it
completes, or GitPython raises GitCommandError with the given message. -/
inductive GitOpResult
  | ok
  | raises (msg : String)
  deriving DecidableEq

/-- Externally visible acquisition actions: a VCS pull, a VCS clone, or the
archive download of the fallback path. -/
inductive AcqAction
  | pull
  | clone
  | download
  deriving DecidableEq

/-- Environment of one acquisition run.  The target directory exists (the
caller creates it before calling `update_kohya_ss`); `listing` is its
content; `statusOutput` is the output of git status --porcelain (`none` when
the status query itself raises); `gitResults` gives, per retry attempt, the
outcome of the pull or clone; `downloadOk` tells whether the whole archive
download block completes. -/
structure AcqEnv where
  gitInstalled : Bool
  listing : List String
  isLocalRepoDir : Bool
  statusOutput : Option String
  gitResults : Nat → GitOpResult
  downloadOk : Bool

/-- launcher.py `update_kohya_ss.has_uncommitted_changes`: a failed status
query is treated as no uncommitted changes; otherwise any non-empty output
counts as uncommitted changes. -/
def has_uncommitted_changes (statusOutput : Option String) : Bool :=
  match statusOutput with
  | none => false
  | some out => decide (0 < out.length)

/-- Error classification applied to a GitCommandError message. -/
def classify_git_error (msg : String) : String :=
  if containsSubstring "Authentication failed".data msg.data then
    "authentication_error"
  else "unknown_error"

/-- launcher.py `update_kohya_ss.git_operations_with_credentials`: result is
`none` when an exception escapes the function (unsupported URL scheme, or the
fall-off-the-end branch whose None return breaks tuple unpacking in the
caller); otherwise `some` of the (success, error-tag) pair.  The second
component records the VCS actions issued. -/
def git_operations_with_credentials (env : AcqEnv) (git_repo : String)
    (update : Bool) (gitResult : GitOpResult) :
    Option (Bool × Option String) × List AcqAction :=
  let git_folder_present := env.listing.contains ".git"
  let venv_folder_present := env.listing.contains "venv"
  if urlScheme git_repo == "https" || urlScheme git_repo == "ssh"
      || env.isLocalRepoDir then
    if git_folder_present && !update then
      (some (true, some "update_skipped"), [])
    else if git_folder_present && update then
      if has_uncommitted_changes env.statusOutput then
        (some (false, some "uncommitted_changes"), [])
      else
        match gitResult with
        | .ok => (some (true, none), [AcqAction.pull])
        | .raises msg =>
          (some (false, some (classify_git_error msg)), [AcqAction.pull])
    else
      if ((env.listing.length == 0) || (env.listing.length == 1))
          && (!git_folder_present || venv_folder_present) then
        match gitResult with
        | .ok => (some (true, none), [AcqAction.clone])
        | .raises msg =>
          (some (false, some (classify_git_error msg)), [AcqAction.clone])
      else
        (none, [])
  else (none, [])

/-- Outcome of the credential-retry loop around the git operations: either
the uncommitted-changes early return (which leaves `update_kohya_ss`
immediately with False), or a terminated loop with a final success flag. -/
inductive LoopResult
  | earlyFalse
  | done (success : Bool)
  deriving DecidableEq

/-- The retry loop of `update_kohya_ss` over the attempt indices of
range(max_attempts): break on success or unexpected error, return early on
uncommitted changes, continue (after prompting for credentials) on an
authentication error; an escaping exception also ends the loop with the
success flag still False. -/
def gitAttemptLoop (env : AcqEnv) (git_repo : String) (update : Bool) :
    List Nat → LoopResult × List AcqAction
  | [] => (LoopResult.done false, [])
  | attempt :: rest =>
    match (git_operations_with_credentials env git_repo update
        (env.gitResults attempt)).1 with
    | none =>
      (LoopResult.done false,
        (git_operations_with_credentials env git_repo update
          (env.gitResults attempt)).2)
    | some (true, _) =>
      (LoopResult.done true,
        (git_operations_with_credentials env git_repo update
          (env.gitResults attempt)).2)
    | some (false, e) =>
      if e = some "uncommitted_changes" then
        (LoopResult.earlyFalse,
          (git_operations_with_credentials env git_repo update
            (env.gitResults attempt)).2)
      else if e = some "authentication_error" then
        ((gitAttemptLoop env git_repo update rest).1,
          (git_operations_with_credentials env git_repo update
            (env.gitResults attempt)).2
            ++ (gitAttemptLoop env git_repo update rest).2)
      else
        (LoopResult.done false,
          (git_operations_with_credentials env git_repo update
            (env.gitResults attempt)).2)

/-- The VCS phase of `update_kohya_ss`: the retry loop runs only when the
git tool is installed; otherwise an exception is raised and caught, leaving
the success flag False. -/
def git_phase (env : AcqEnv) (git_repo : String) (update : Bool) :
    LoopResult × List AcqAction :=
  if env.gitInstalled then gitAttemptLoop env git_repo update [0, 1, 2, 3]
  else (LoopResult.done false, [])

/-- The archive-fallback decision tree at the end of `update_kohya_ss`,
entered with success still False: the download is attempted only under the
source condition (empty or starting with the canonical repository URL head),
the branch condition (empty or master), and the directory condition (update
flag set, directory empty, or only the venv folder present); every other
branch leaves the run failed without a download. -/
def update_fallback (env : AcqEnv) (git_repo branch : String)
    (update : Bool) (gitActs : List AcqAction) : Bool × List AcqAction :=
  if (update || (env.listing.length == 0)
        || ((env.listing.length == 1) && env.listing.contains "venv"))
      && ((branch == "") || (branch == "master"))
      && ((git_repo == "")
        || strStartsWith git_repo "https://github.com/bmaltais/kohya_ss") then
    (env.downloadOk, gitActs ++ [AcqAction.download])
  else if update
      && !(strStartsWith git_repo "https://github.com/bmaltais/kohya_ss") then
    (false, gitActs)
  else if 1 < env.listing.length then
    (false, gitActs)
  else
    (false, gitActs)

/-- launcher.py `update_kohya_ss`: run the VCS phase (when git is installed),
then, unless it succeeded or ended in the uncommitted-changes early return,
run the archive-fallback decision tree.  Returns the success flag and the
list of acquisition actions performed. -/
def update_kohya_ss (env : AcqEnv) (git_repo branch : String)
    (update : Bool) : Bool × List AcqAction :=
  match (git_phase env git_repo update).1 with
  | LoopResult.earlyFalse => (false, (git_phase env git_repo update).2)
  | LoopResult.done success =>
    if success then (true, (git_phase env git_repo update).2)
    else update_fallback env git_repo branch update
      (git_phase env git_repo update).2

/-- Concrete environment for the C3 counterexample: a target directory with
VCS metadata and uncommitted changes, the update flag set, but no git tool
installed. -/
def envC3bad : AcqEnv where
  gitInstalled := false
  listing := [".git", "kohya_gui.py"]
  isLocalRepoDir := false
  statusOutput := some "M kohya_gui.py"
  gitResults := fun _ => GitOpResult.ok
  downloadOk := true

/-- Concrete environment for the C3 witness: git installed, VCS metadata and
uncommitted changes present. -/
def envC3good : AcqEnv where
  gitInstalled := true
  listing := [".git", "train.py"]
  isLocalRepoDir := false
  statusOutput := some "M train.py"
  gitResults := fun _ => GitOpResult.ok
  downloadOk := true

/-- Concrete environment for the C6 counterexample and witness: git absent,
populated directory, update flag driving the fallback. -/
def envC6bad : AcqEnv where
  gitInstalled := false
  listing := ["somefile.txt", "otherfile.txt"]
  isLocalRepoDir := false
  statusOutput := none
  gitResults := fun _ => GitOpResult.ok
  downloadOk := true

/- ===================================================================
   Permission normalization: launcher.py, check_permissions
   (lines 1063-1103)
   =================================================================== -/

def S_IRUSR : Nat := 256

def S_IWUSR : Nat := 128

def S_IXUSR : Nat := 64

def S_IRGRP : Nat := 32

def S_IWGRP : Nat := 16

def S_IXGRP : Nat := 8

def S_IROTH : Nat := 4

def S_IWOTH : Nat := 2

def S_IXOTH : Nat := 1

/-- One file visited by the walk of `check_permissions`: the directory that
holds it, its name, whether its guessed mime type is an executable, its
current permission bits, and whether the operating system denies the chmod
call on it. -/
structure PFile where
  root : String
  name : String
  isExecutableMime : Bool
  mode : Nat
  chmodDenied : Bool
  deriving DecidableEq

/-- The required permission set of `check_permissions`: read, write and
execute for owner, group and other on executables and on .py .exe .elf
files; read and write for owner, group and other on everything else. -/
def required_permissions (f : PFile) : Nat :=
  if f.isExecutableMime
      || strEndsWith f.name ".py" || strEndsWith f.name ".exe"
      || strEndsWith f.name ".elf" then
    S_IRUSR ||| S_IWUSR ||| S_IXUSR ||| S_IRGRP ||| S_IWGRP ||| S_IXGRP
      ||| S_IROTH ||| S_IWOTH ||| S_IXOTH
  else
    S_IRUSR ||| S_IWUSR ||| S_IRGRP ||| S_IWGRP ||| S_IROTH ||| S_IWOTH

/-- The Python expression required & ~current on non-negative integers: the
bits of required absent from current, computed as
required XOR (required AND current). -/
def missingBits (required current : Nat) : Nat :=
  required ^^^ (required &&& current)

/-- The walk skips the whole site-packages and share/doc subtrees of the
venv directory (paths joined with the separator of the posix form). -/
def perm_skip_root (venvDir root : String) : Bool :=
  strStartsWith root (venvDir ++ "/Lib/site-packages")
    || strStartsWith root (venvDir ++ "/share/doc")

/-- launcher.py `check_permissions`, file loop: for each non-skipped file
compute the missing bits; when some are missing, chmod to current OR
missing; a PermissionError on a file whose directory does not contain "bin"
and whose name does not contain "python" makes the routine return False at
once, while on other files the walk just continues.  The result pairs the
returned flag with the visited files and their resulting permission bits. -/
def check_permissions_walk (venvDir : String) :
    List PFile → Bool × List (PFile × Nat)
  | [] => (true, [])
  | f :: fs =>
    if perm_skip_root venvDir f.root then
      ((check_permissions_walk venvDir fs).1,
        (f, f.mode) :: (check_permissions_walk venvDir fs).2)
    else
      if missingBits (required_permissions f) f.mode ≠ 0 then
        if f.chmodDenied then
          if !(containsSubstring "bin".data f.root.data)
              && !(containsSubstring "python".data f.name.data) then
            (false, [(f, f.mode)])
          else
            ((check_permissions_walk venvDir fs).1,
              (f, f.mode) :: (check_permissions_walk venvDir fs).2)
        else
          ((check_permissions_walk venvDir fs).1,
            (f, f.mode ||| missingBits (required_permissions f) f.mode)
              :: (check_permissions_walk venvDir fs).2)
      else
        ((check_permissions_walk venvDir fs).1,
          (f, f.mode) :: (check_permissions_walk venvDir fs).2)

/-- launcher.py `check_permissions`: the walk starts at the venv
subdirectory of the installation directory. -/
def check_permissions (dir : String) (files : List PFile) :
    Bool × List (PFile × Nat) :=
  check_permissions_walk (dir ++ "/venv") files

/-- Bit-set inclusion on natural numbers. -/
def bitsSubset (a b : Nat) : Prop := a &&& b = a

/- ===================================================================
   Container detection and platform library linking:
   launcher.py, in_container (lines 515-538) and setup_file_links
   (lines 454-511)
   =================================================================== -/

/-- A Python value as it appears in boolean context. -/
inductive PyVal
  | pyBool (b : Bool)
  | pyFunctionObject
  deriving DecidableEq

/-- Python truthiness: a function object is always truthy. -/
def pyTruthy : PyVal → Bool
  | .pyBool b => b
  | .pyFunctionObject => true

/-- The container indicator patterns of `in_container`, with the single
alternation expanded into its two branches; they act as substring tests
(the dot of system.slice is taken literally). -/
def container_indicator_markers : List String :=
  [":cpuset:/docker", ":cpuset:/kubepods", ":/docker/",
   ":cpuset:/docker/buildkit", ":/system.slice/docker-",
   ":/system.slice/containerd-", ":/system.slice/rkt-",
   ":/system.slice/run-", ":/system.slice/pod-"]

/-- launcher.py `in_container` as a call: False when the cgroup file of
process 1 is absent; otherwise True exactly when some indicator occurs in
its content or the dockerenv marker file exists. -/
def in_container (cgroupContent : Option String) (dockerenvExists : Bool) :
    Bool :=
  match cgroupContent with
  | none => false
  | some content =>
    if container_indicator_markers.any
        (fun m => containsSubstring m.data content.data) || dockerenvExists
    then true
    else false

/-- launcher.py `setup_file_links`, line 485: the guard of the linking block
is the expression runpod and in_container, where in_container is the
FUNCTION OBJECT, not a call; a function object is truthy, so the guard
reduces to runpod alone and never consults the container state. -/
def setup_file_links_linking_guard (runpod : Bool) : Bool :=
  runpod && pyTruthy PyVal.pyFunctionObject

/- ===================================================================
   Dependency installer: launcher.py, install_python_dependencies
   (lines 1129-1305)
   =================================================================== -/

def TENSORFLOW_VERSION : String := "2.12.0"

def TENSORFLOW_MACOS_VERSION : String := "2.12.0"

def TENSORFLOW_METAL_VERSION : String := "0.8.0"

def TORCH_VERSION_1 : String := "1.12.1+cu116"

def TORCHVISION_VERSION_1 : String := "0.13.1+cu116"

def TORCH_VERSION_2 : String := "2.0.0+cu118"

def TORCHVISION_VERSION_2 : String := "0.15.1+cu118"

def TRITON_URL : String :=
  "https://huggingface.co/r4ziel/xformers_pre_built/resolve/main/triton-2.0.0-cp310-cp310-win_amd64.whl"

def XFORMERS_VERSION : String := "0.0.17"

/-- Python str.strip on ASCII strings. -/
def pyStrip (s : String) : String := String.mk (stripWs s.data)

/-- The suffix following the first occurrence of the pattern, scanning left
to right; `none` when the pattern does not occur. -/
def dropThroughSub (pat : List Char) : List Char → Option (List Char)
  | [] => if pat.isEmpty then some [] else none
  | c :: cs =>
    if pat.isPrefixOf (c :: cs) then some ((c :: cs).drop pat.length)
    else dropThroughSub pat cs

/-- re.search of the marker-comment pattern (a hash, later the text
kohya_ss, later the text library, with arbitrary gaps) on one line. -/
def matches_kohya_lib_comment (line : String) : Bool :=
  match dropThroughSub "#".data line.data with
  | none => false
  | some r1 =>
    match dropThroughSub "kohya_ss".data r1 with
    | none => false
    | some r2 => (dropThroughSub "library".data r2).isSome

/-- Replace every non-overlapping occurrence of pat, scanning left to
right; the fuel starts at the list length and bounds the recursion. -/
def pyReplaceCore (pat rep : List Char) : Nat → List Char → List Char
  | 0, l => l
  | _ + 1, [] => []
  | fuel + 1, c :: cs =>
    if pat.isPrefixOf (c :: cs) && !pat.isEmpty then
      rep ++ pyReplaceCore pat rep fuel (cs.drop (pat.length - 1))
    else c :: pyReplaceCore pat rep fuel cs

/-- Python str.replace of every occurrence. -/
def pyReplace (s pat rep : String) : String :=
  String.mk (pyReplaceCore pat.data rep.data s.data.length s.data)

/-- The base-requirements processing loop of `install_python_dependencies`:
comments and blank lines are skipped (without resetting the marker flag);
after the marker comment matched, the next copied line has every dot
replaced by the installation directory. -/
def process_requirements_lines (dir : String) :
    Bool → List String → List String
  | _, [] => []
  | found, line :: rest =>
    if strStartsWith (pyStrip line) "#" || (pyStrip line == "") then
      process_requirements_lines dir found rest
    else if found then
      pyReplace line "." dir :: process_requirements_lines dir false rest
    else if matches_kohya_lib_comment line then
      process_requirements_lines dir true rest
    else
      line :: process_requirements_lines dir false rest

/-- The non-comment non-blank lines of a supplemental requirements file. -/
def nonblank_requirement_lines (lines : List String) : List String :=
  lines.filter
    (fun l => !(strStartsWith (pyStrip l) "#" || (pyStrip l == "")))

/-- One package operation performed by the dependency installer. -/
inductive DepAction
  | pipSelfUpdate
  | uninstall (pkg : String)
  | installDirect (pkgs : String)
  | install (line : String)
  | writeMarker
  deriving DecidableEq

/-- Environment of one run of `install_python_dependencies`:
`flagFileExists` is the existence of the pip-operations-done marker file;
`requirementsLines` the content of requirements.txt when present; `family`
and `machine` the probed platform; the torch flags whether those modules
are already importable; `interactive` and `choiceExperimental` drive the
Windows torch-version prompt; `macosRequirementsLines` the optional
supplemental macOS requirements file. -/
structure DepEnv where
  flagFileExists : Bool
  requirementsLines : Option (List String)
  dir : String
  runpod : Bool
  family : String
  machine : String
  torchInstalled : Bool
  torchvisionInstalled : Bool
  interactive : Bool
  choiceExperimental : Bool
  macosRequirementsLines : Option (List String)
  deriving DecidableEq

/-- launcher.py `install_python_dependencies`: return immediately when the
marker file exists and neither update nor repair is set; otherwise update
pip, then (when requirements.txt exists) assemble and install the adjusted
manifest: processed base lines, tensorrt in runpod mode, an uninstall pass
in repair mode, the platform-specific torch or tensorflow additions, and
the supplemental macOS lines; finally write the marker.  On the Windows
non-interactive reinstall path the source reads the never-assigned
interactive choice variable after the stable install: the NameError is
caught by the surrounding handler and the routine returns without writing
the marker. -/
def install_python_dependencies (env : DepEnv) (update repair : Bool) :
    List DepAction :=
  if env.flagFileExists && !(update || repair) then []
  else
    match env.requirementsLines with
    | none => [DepAction.pipSelfUpdate, DepAction.writeMarker]
    | some lines =>
      let manifest := process_requirements_lines env.dir false lines
        ++ (if env.runpod then ["tensorrt"] else [])
      let uninstalls := if repair then
          [DepAction.uninstall "xformers", DepAction.uninstall "torch",
           DepAction.uninstall "torchvision", DepAction.uninstall "triton"]
        else []
      let winBlockActive := (env.family == "Windows")
        && (!(env.torchInstalled || env.torchvisionInstalled)
          || (update || repair))
      if winBlockActive && !env.interactive then
        DepAction.pipSelfUpdate :: uninstalls
          ++ [DepAction.installDirect ("torch==" ++ TORCH_VERSION_1
              ++ " torchvision==" ++ TORCHVISION_VERSION_1)]
      else
        let winDirect := if winBlockActive then
            [DepAction.installDirect ("torch=="
              ++ (if env.choiceExperimental then TORCH_VERSION_2
                  else TORCH_VERSION_1)
              ++ " torchvision=="
              ++ (if env.choiceExperimental then TORCHVISION_VERSION_2
                  else TORCHVISION_VERSION_1))]
            ++ (if env.choiceExperimental then
                [DepAction.installDirect TRITON_URL,
                 DepAction.installDirect ("xformers==" ++ XFORMERS_VERSION)]
              else [])
          else []
        let macAppend := if env.family == "macOS" then
            (if env.machine == "arm64" then
              ["tensorflow-macos==" ++ TENSORFLOW_MACOS_VERSION,
               "tensorflow-metal==" ++ TENSORFLOW_METAL_VERSION]
            else if env.machine == "x86_64" then
              ["tensorflow==" ++ TENSORFLOW_VERSION]
            else [])
          else []
        let macReq := if env.family == "macOS" then
            nonblank_requirement_lines (env.macosRequirementsLines.getD [])
          else []
        DepAction.pipSelfUpdate :: uninstalls ++ winDirect
          ++ (manifest ++ macAppend ++ macReq).map DepAction.install
          ++ [DepAction.writeMarker]

/-- Concrete environment for the C7 witness. -/
def envC7 : DepEnv where
  flagFileExists := true
  requirementsLines := some ["accelerate==0.15.0", "altair==4.2.2"]
  dir := "/opt/kohya_ss"
  runpod := false
  family := "Ubuntu"
  machine := "x86_64"
  torchInstalled := false
  torchvisionInstalled := false
  interactive := false
  choiceExperimental := false
  macosRequirementsLines := none

/- ===================================================================
   Launch and interrupt handling: launcher.py, launch_kohya_gui
   (lines 1376-1433), check_storage_space (lines 421-431) and the
   top-level handler (lines 1617-1619)
   =================================================================== -/

/-- Environment of the launch stage; `inContainer` is the result of the
in_container() call made there. -/
structure LaunchEnv where
  inContainer : Bool
  venvExists : Bool
  venvPythonExists : Bool
  guiFileExists : Bool
  deriving DecidableEq

/-- How a stage of the script ends: normal return, sys.exit with a status,
or a KeyboardInterrupt escaping the stage. -/
inductive PyExit
  | returnedNormally
  | exited (code : Nat)
  | keyboardInterrupt
  deriving DecidableEq

/-- launcher.py `launch_kohya_gui`: outside a container a missing venv or
missing venv interpreter exits 1; a missing gui entry file exits 1; an
interactive interrupt while the gui child process runs is caught locally
and converted to sys.exit(0). -/
def launch_kohya_gui (env : LaunchEnv) (interruptDuringChild : Bool) :
    PyExit :=
  if !env.inContainer && !env.venvExists then .exited 1
  else if !env.inContainer && !env.venvPythonExists then .exited 1
  else if env.guiFileExists then
    if interruptDuringChild then .exited 0
    else .returnedNormally
  else .exited 1

/-- launcher.py `check_storage_space`: during the low-space countdown the
operator is invited to interrupt; such an interrupt escapes the stage as a
KeyboardInterrupt. -/
def check_storage_space_outcome (lowSpace interrupted : Bool) : PyExit :=
  if lowSpace && interrupted then .keyboardInterrupt
  else .returnedNormally

/-- The top-level guard of the script: the whole pipeline runs in a try
block whose only handler catches KeyboardInterrupt and calls sys.exit(1);
sys.exit statuses propagate, and a normal return ends the process with
status 0. -/
def top_level_exit (pipelineOutcome : PyExit) : Nat :=
  match pipelineOutcome with
  | .returnedNormally => 0
  | .exited n => n
  | .keyboardInterrupt => 1

/- ===================================================================
   Theorems
   =================================================================== -/

theorem load_config_step_eq (acc : Cfg) (o : Option Cfg) :
    load_config_step acc o = acc ++ o.getD [] := by
  cases o with
  | none => simp [load_config_step]
  | some d =>
    by_cases hd : d.isEmpty = true
    · have hnil : d = [] := by simpa using hd
      simp [load_config_step, pyDictUpdate, hnil]
    · simp [load_config_step, pyDictUpdate, hd]

theorem load_config_fold (ds : List (Option Cfg)) (acc : Cfg) :
    ds.foldl load_config_step acc
      = acc ++ (ds.map (fun o => o.getD [])).join := by
  induction ds generalizing acc with
  | nil => simp
  | cons o rest ih =>
    simp [List.foldl_cons, load_config_step_eq, ih, List.append_assoc]

/-- Claim C1 (amended): after the merge, the effective value of every option
key is the value from the EARLIEST discovered configuration file that defines
it; discovered files override the explicitly-specified file, which only
supplies keys absent from every discovered file. -/
theorem claim_C1_amended (ds : List (Option Cfg)) (e : Option Cfg)
    (k : String) :
    config_lookup (load_config ds e) k
      = ((ds.map (fun o => o.getD [])).join ++ e.getD []).lookup k := by
  unfold load_config
  simp only [load_config_fold, List.nil_append, load_config_step_eq]
  by_cases h :
      ((ds.map (fun o => o.getD [])).join ++ e.getD []).isEmpty = true
  · have hnil : (ds.map (fun o => o.getD [])).join ++ e.getD [] = [] := by
      simpa using h
    simp [config_lookup, h, hnil]
  · simp [config_lookup, h]

/-- Claim C1 counterexample: two discovered files and an explicit file all
define key "k"; the effective value is the one from the FIRST discovered
file, not from the later discovered file and not from the explicit file,
refuting the claimed priority order. -/
theorem claim_C1_counterexample :
    config_lookup
        (load_config [some [("k", "a")], some [("k", "b")]]
          (some [("k", "c")])) "k" = some "a"
    ∧ (some "a" : Option String) ≠ some "c"
    ∧ (some "a" : Option String) ≠ some "b" :=
  ⟨by decide, by decide, by decide⟩

theorem not_ws_of_digit (c : Char) (h : isDigitC c = true) :
    isPyWs c = false := by
  unfold isDigitC at h
  unfold isPyWs
  simp only [Bool.and_eq_true, decide_eq_true_eq] at h
  simp only [Bool.or_eq_false_iff, decide_eq_false_iff_not]
  omega

theorem dropWhile_eq_self_of_all {p : Char → Bool} (l : List Char)
    (h : ∀ c ∈ l, p c = false) : l.dropWhile p = l := by
  cases l with
  | nil => rfl
  | cons c cs => simp [List.dropWhile_cons, h c (by simp)]

theorem stripWs_digits (l : List Char) (h : ∀ c ∈ l, isDigitC c = true) :
    stripWs l = l := by
  unfold stripWs
  have h1 : ∀ c ∈ l, isPyWs c = false := fun c hc => not_ws_of_digit c (h c hc)
  rw [dropWhile_eq_self_of_all l h1]
  rw [dropWhile_eq_self_of_all l.reverse
    (fun c hc => h1 c (List.mem_reverse.mp hc))]
  exact List.reverse_reverse l

theorem digitsCore_all_digits (l : List Char) :
    ∀ acc, (∀ c ∈ l, isDigitC c = true) →
      digitsCore acc l = some (l.foldl (fun a c => a * 10 + digitVal c) acc) := by
  induction l with
  | nil => intro acc _; rfl
  | cons c cs ih =>
    intro acc h
    have hc : isDigitC c = true := h c (by simp)
    have hne : ¬(c = '_') := by
      intro hEq
      rw [hEq] at hc
      exact absurd hc (by decide)
    have hstep : digitsCore acc (c :: cs)
        = digitsCore (acc * 10 + digitVal c) cs := by
      conv_lhs => unfold digitsCore
      simp only [hne, if_false, hc, if_true]
    rw [hstep, List.foldl_cons]
    exact ih (acc * 10 + digitVal c) (fun d hd => h d (by simp [hd]))

theorem pyInt_of_digits (s : String) (hne : s.data ≠ [])
    (h : ∀ c ∈ s.data, isDigitC c = true) :
    pyInt s = some ((natOfDigits s.data : Nat) : Int) := by
  have hstrip : stripWs s.data = s.data := stripWs_digits s.data h
  unfold pyInt
  rw [hstrip]
  cases hd : s.data with
  | nil => exact absurd hd hne
  | cons c cs =>
    rw [hd] at h
    have hc : isDigitC c = true := h c (by simp)
    have hplus : ¬(c = '+') := by
      intro hEq; rw [hEq] at hc; exact absurd hc (by decide)
    have hminus : ¬(c = '-') := by
      intro hEq; rw [hEq] at hc; exact absurd hc (by decide)
    have hparse : parseDigitsPy (c :: cs)
        = some (cs.foldl (fun a c => a * 10 + digitVal c) (digitVal c)) := by
      simp only [parseDigitsPy, hc, if_true]
      exact digitsCore_all_digits cs (digitVal c) (fun d hd => h d (by simp [hd]))
    have hval : natOfDigits (c :: cs)
        = cs.foldl (fun a c => a * 10 + digitVal c) (digitVal c) := by
      simp [natOfDigits, List.foldl_cons]
    simp [hplus, hminus, hparse, hd, hval]

/-- Claim C2 (amended): a bare non-negative digit string yields that integer
(and more generally any string accepted by Python int() with a non-negative
value yields that value); a string consisting only of the marker character
'v' of length N yields the level N + 1 (the source counts the occurrences of
'v' after appending one extra 'v'); any other string, and any negative
integer, is rejected with an error and process exit code 1. -/
theorem claim_C2_amended (s : String) :
    (s.data ≠ [] → (∀ c ∈ s.data, isDigitC c = true) →
        countOccurrencesCall s = .set ((natOfDigits s.data : Nat) : Int))
    ∧ (∀ n : Int, pyInt s = some n → 0 ≤ n →
        countOccurrencesCall s = .set n)
    ∧ (∀ n : Int, pyInt s = some n → n < 0 →
        countOccurrencesCall s = .exitError)
    ∧ (pyInt s = none → s.data.all (fun c => c == 'v') = true →
        countOccurrencesCall s = .set ((s.data.length + 1 : Nat) : Int))
    ∧ (pyInt s = none → s.data.all (fun c => c == 'v') = false →
        countOccurrencesCall s = .exitError) := by
  refine ⟨?_, ?_, ?_, ?_, ?_⟩
  · intro hne hdig
    have hint := pyInt_of_digits s hne hdig
    have hge : ¬((natOfDigits s.data : Int) < 0) :=
      not_lt.mpr (Int.ofNat_nonneg _)
    unfold countOccurrencesCall
    rw [hint]
    simp [hge]
  · intro n hn h0
    have hge : ¬(n < 0) := not_lt.mpr h0
    unfold countOccurrencesCall
    rw [hn]
    simp [hge]
  · intro n hn h0
    unfold countOccurrencesCall
    rw [hn]
    simp [h0]
  · intro hn hall
    have h1 : List.count 'v' s.data = s.data.length := by
      rw [List.count_eq_length]
      intro b hb
      have := List.all_eq_true.mp hall b hb
      exact (beq_iff_eq.mp this).symm
    have hcount : List.count 'v' (s ++ "v").data = s.data.length + 1 := by
      have hdata : (s ++ "v").data = s.data ++ ['v'] := by simp
      rw [hdata, List.count_append, h1]
      simp [List.count_cons]
    have hge3 : ¬(((s.data.length + 1 : Nat) : Int) < 0) := by omega
    unfold countOccurrencesCall
    rw [hn]
    simp only [hall, if_true, hcount, hge3, if_false]
  · intro hn hall
    unfold countOccurrencesCall
    rw [hn]
    simp [hall]

/-- Claim C2 counterexample: the value string "vvv" resolves to verbosity
level 4, not 3 as claimed. -/
theorem claim_C2_counterexample :
    countOccurrencesCall "vvv" = VerbosityOutcome.set 4
    ∧ VerbosityOutcome.set 4 ≠ VerbosityOutcome.set 3 :=
  ⟨by decide, by decide⟩

/-- Witness for claim C2: concrete instances of each amended branch. -/
theorem claim_C2_witness :
    countOccurrencesCall "7" = VerbosityOutcome.set 7
    ∧ countOccurrencesCall "vv" = VerbosityOutcome.set 3
    ∧ countOccurrencesCall "-2" = VerbosityOutcome.exitError
    ∧ countOccurrencesCall "x1" = VerbosityOutcome.exitError := by
  refine ⟨?_, ?_, ?_, ?_⟩
  · exact ((claim_C2_amended "7").1 (by decide) (by decide)).trans (by decide)
  · exact (((claim_C2_amended "vv").2.2.2.1) (by decide) (by decide)).trans
      (by decide)
  · exact ((claim_C2_amended "-2").2.2.1) (-2) (by decide) (by decide)
  · exact ((claim_C2_amended "x1").2.2.2.2) (by decide) (by decide)

/-- Claim C3 counterexample: with VCS metadata and uncommitted local changes
present and the update flag set, but the git tool unavailable, the run does
NOT report failure: the archive fallback runs, downloads over the directory,
and the run reports success. -/
theorem claim_C3_counterexample :
    has_uncommitted_changes envC3bad.statusOutput = true
    ∧ envC3bad.listing.contains ".git" = true
    ∧ (update_kohya_ss envC3bad "https://github.com/bmaltais/kohya_ss.git"
        "master" true).1 = true
    ∧ AcqAction.download ∈ (update_kohya_ss envC3bad
        "https://github.com/bmaltais/kohya_ss.git" "master" true).2 := by
  refine ⟨by decide, by decide, by decide, by decide⟩

/-- Claim C10: the archive fallback derives the repository name with
str.rstrip of ".git" (stripping trailing characters of the set, not one
literal suffix): the canonical URL still maps to kohya_ss, but an
otherwise-permitted URL whose repository name ends in one of those
characters is renamed, and the API and download URLs then reference a
different repository than the one given. -/
theorem claim_C10_rstrip :
    repo_name_of "https://github.com/bmaltais/kohya_ss.git" = "kohya_ss"
    ∧ strStartsWith "https://github.com/bmaltais/kohya_ssgit"
        "https://github.com/bmaltais/kohya_ss" = true
    ∧ repo_name_of "https://github.com/bmaltais/kohya_ssgit" = "kohya_ss"
    ∧ removeDotGitSuffix "kohya_ssgit" = "kohya_ssgit"
    ∧ repo_name_of "https://github.com/bmaltais/kohya_ssgit"
        ≠ removeDotGitSuffix "kohya_ssgit"
    ∧ api_url_of "https://github.com/bmaltais/kohya_ssgit"
        = "https://api.github.com/repos/bmaltais/kohya_ss/releases/latest"
    ∧ download_url_of "https://github.com/bmaltais/kohya_ssgit" "v21.5.7"
        = "https://github.com/bmaltais/kohya_ss/archive/refs/tags/v21.5.7.zip" := by
  refine ⟨by decide, by decide, by decide, by decide, by decide, by decide,
    by decide⟩

theorem download_notin_gitops (env : AcqEnv) (repo : String) (u : Bool)
    (r : GitOpResult) :
    AcqAction.download ∉ (git_operations_with_credentials env repo u r).2 := by
  unfold git_operations_with_credentials
  rcases r with _ | msg <;> split_ifs <;> simp <;> split_ifs <;> simp

theorem download_notin_loop (env : AcqEnv) (repo : String) (u : Bool)
    (attempts : List Nat) :
    AcqAction.download ∉ (gitAttemptLoop env repo u attempts).2 := by
  induction attempts with
  | nil => simp [gitAttemptLoop]
  | cons a rest ih =>
    have hg := download_notin_gitops env repo u (env.gitResults a)
    unfold gitAttemptLoop
    rcases hro : (git_operations_with_credentials env repo u
        (env.gitResults a)).1 with _ | ⟨b, e⟩
    · simp only [hro]
      exact hg
    · cases b
      · simp only [hro]
        split_ifs <;> simp_all [List.mem_append]
      · simp only [hro]
        exact hg

theorem download_notin_git_phase (env : AcqEnv) (repo : String) (u : Bool) :
    AcqAction.download ∉ (git_phase env repo u).2 := by
  unfold git_phase
  cases hgi : env.gitInstalled <;> simp [download_notin_loop]

theorem update_fallback_of_wrong_repo (env : AcqEnv) (repo branch : String)
    (u : Bool) (acts : List AcqAction)
    (h : strStartsWith repo "https://github.com/bmaltais/kohya_ss" = false)
    (hne : ¬(repo = "")) :
    update_fallback env repo branch u acts = (false, acts) := by
  have hC : ((repo == "")
      || strStartsWith repo "https://github.com/bmaltais/kohya_ss") = false := by
    rw [Bool.or_eq_false_iff]
    exact ⟨beq_eq_false_iff_ne.mpr hne, h⟩
  unfold update_fallback
  simp only [hC, Bool.and_false]
  split_ifs <;> simp_all

theorem update_fallback_mem_download (env : AcqEnv) (repo branch : String)
    (u : Bool) (acts : List AcqAction)
    (hacts : AcqAction.download ∉ acts)
    (hmem : AcqAction.download ∈ (update_fallback env repo branch u acts).2) :
    ((u || (env.listing.length == 0)
        || ((env.listing.length == 1) && env.listing.contains "venv"))
      && ((branch == "") || (branch == "master"))
      && ((repo == "")
        || strStartsWith repo "https://github.com/bmaltais/kohya_ss")) = true := by
  by_cases hg : ((u || (env.listing.length == 0)
      || ((env.listing.length == 1) && env.listing.contains "venv"))
    && ((branch == "") || (branch == "master"))
    && ((repo == "")
      || strStartsWith repo "https://github.com/bmaltais/kohya_ss")) = true
  · exact hg
  · exfalso
    unfold update_fallback at hmem
    rw [if_neg hg] at hmem
    split_ifs at hmem <;> exact absurd hmem hacts

/-- Claim C3 (amended): when the VCS tool is available and the source
location has a supported form (https or ssh URL, or an existing local
repository path), an update run on a directory containing VCS metadata and
uncommitted local modifications classifies the failure as uncommitted
changes and returns failure at once, performing no pull, no clone and no
archive download (the archive fallback is bypassed). -/
theorem claim_C3_amended (env : AcqEnv) (git_repo branch : String)
    (hgit : env.gitInstalled = true)
    (hmeta : env.listing.contains ".git" = true)
    (hdirty : has_uncommitted_changes env.statusOutput = true)
    (hscheme : urlScheme git_repo = "https" ∨ urlScheme git_repo = "ssh"
      ∨ env.isLocalRepoDir = true) :
    (git_operations_with_credentials env git_repo true (env.gitResults 0)).1
        = some (false, some "uncommitted_changes")
    ∧ update_kohya_ss env git_repo branch true = (false, []) := by
  have hs : (urlScheme git_repo == "https" || urlScheme git_repo == "ssh"
      || env.isLocalRepoDir) = true := by
    rcases hscheme with h | h | h <;> simp [h]
  have hmem : ".git" ∈ env.listing := by simpa using hmeta
  have hops : git_operations_with_credentials env git_repo true
      (env.gitResults 0) = (some (false, some "uncommitted_changes"), []) := by
    unfold git_operations_with_credentials
    simp [hs, hmem, hdirty]
  have hloop : gitAttemptLoop env git_repo true [0, 1, 2, 3]
      = (LoopResult.earlyFalse, []) := by
    unfold gitAttemptLoop
    rw [hops]
    simp
  have hphase : git_phase env git_repo true = (LoopResult.earlyFalse, []) := by
    unfold git_phase
    rw [hgit, if_pos rfl, hloop]
  refine ⟨by rw [hops], ?_⟩
  unfold update_kohya_ss
  rw [hphase]

/-- Witness for claim C3 at a concrete environment. -/
theorem claim_C3_witness :
    update_kohya_ss envC3good "https://github.com/user/fork.git" "master" true
      = (false, []) :=
  (claim_C3_amended envC3good "https://github.com/user/fork.git" "master"
    (by decide) (by decide) (by decide) (Or.inl (by decide))).2

/-- Claim C6 (amended): the archive download is attempted only when the
source location is empty or STARTS WITH the canonical repository URL head
(string prefix test, not equality), the branch is empty or master, and the
directory is empty, venv-only, or the update flag is set; for every run
whose source does not start with the canonical head, no download is ever
attempted and any reported success can only come from the VCS phase, never
from the fallback. -/
theorem claim_C6_amended (env : AcqEnv) (git_repo branch : String)
    (update : Bool) :
    (AcqAction.download ∈ (update_kohya_ss env git_repo branch update).2 →
      (update = true ∨ env.listing.length = 0
        ∨ (env.listing.length = 1 ∧ env.listing.contains "venv" = true))
      ∧ (branch = "" ∨ branch = "master")
      ∧ (git_repo = ""
        ∨ strStartsWith git_repo "https://github.com/bmaltais/kohya_ss" = true))
    ∧ (strStartsWith git_repo "https://github.com/bmaltais/kohya_ss" = false →
        git_repo ≠ "" →
        AcqAction.download ∉ (update_kohya_ss env git_repo branch update).2
        ∧ ((update_kohya_ss env git_repo branch update).1 = true →
          (git_phase env git_repo update).1 = LoopResult.done true)) := by
  have hnd := download_notin_git_phase env git_repo update
  constructor
  · intro hmem
    unfold update_kohya_ss at hmem
    rcases hcase : (git_phase env git_repo update).1 with _ | success
    · rw [hcase] at hmem
      simp only at hmem
      exact absurd hmem hnd
    · rw [hcase] at hmem
      cases hs : success with
      | true =>
        rw [hs] at hmem
        simp only [if_true] at hmem
        exact absurd hmem hnd
      | false =>
        rw [hs] at hmem
        simp only [if_false] at hmem
        have hg := update_fallback_mem_download env git_repo branch update
          (git_phase env git_repo update).2 hnd hmem
        simp only [Bool.and_eq_true, Bool.or_eq_true, beq_iff_eq] at hg
        refine ⟨?_, ?_, ?_⟩ <;> tauto
  · intro hstart hne
    have hfb := update_fallback_of_wrong_repo env git_repo branch update
      (git_phase env git_repo update).2 hstart hne
    unfold update_kohya_ss
    rcases hcase : (git_phase env git_repo update).1 with _ | success
    · exact ⟨hnd, by simp⟩
    · cases success with
      | true => exact ⟨hnd, fun _ => rfl⟩
      | false =>
        rw [hfb]
        refine ⟨?_, ?_⟩ <;> simp [hnd]

/-- Claim C6 counterexample: a source URL different from the canonical
default repository but sharing its prefix still triggers the archive
download (and here reports success), refuting the claim that a non-default
source always fails without a download attempt. -/
theorem claim_C6_counterexample :
    ("https://github.com/bmaltais/kohya_ss2.git"
        ≠ "https://github.com/bmaltais/kohya_ss.git")
    ∧ AcqAction.download ∈ (update_kohya_ss envC6bad
        "https://github.com/bmaltais/kohya_ss2.git" "master" true).2
    ∧ (update_kohya_ss envC6bad "https://github.com/bmaltais/kohya_ss2.git"
        "master" true).1 = true :=
  ⟨by decide, by decide, by decide⟩

/-- Witness for claim C6: both amended conjuncts applied at concrete
inputs. -/
theorem claim_C6_witness :
    ((true = true ∨ envC6bad.listing.length = 0
        ∨ (envC6bad.listing.length = 1
          ∧ envC6bad.listing.contains "venv" = true))
      ∧ ("master" = "" ∨ "master" = "master")
      ∧ ("https://github.com/bmaltais/kohya_ss2.git" = ""
        ∨ strStartsWith "https://github.com/bmaltais/kohya_ss2.git"
            "https://github.com/bmaltais/kohya_ss" = true))
    ∧ AcqAction.download ∉ (update_kohya_ss envC6bad
        "https://example.com/repo.git" "master" true).2 := by
  constructor
  · exact (claim_C6_amended envC6bad "https://github.com/bmaltais/kohya_ss2.git"
      "master" true).1 (by decide)
  · exact ((claim_C6_amended envC6bad "https://example.com/repo.git" "master"
      true).2 (by decide) (by decide)).1

theorem bitsSubset_iff_testBit (a b : Nat) :
    bitsSubset a b ↔ ∀ i, a.testBit i = true → b.testBit i = true := by
  constructor
  · intro h i hi
    have := congrArg (fun n => n.testBit i) h
    simp only [Nat.testBit_land, hi, Bool.true_and] at this
    exact this
  · intro h
    apply Nat.eq_of_testBit_eq
    intro i
    rw [Nat.testBit_land]
    cases ha : a.testBit i
    · simp
    · simp [h i ha]

theorem land_lor_self (a b : Nat) : a &&& (a ||| b) = a := by
  apply Nat.eq_of_testBit_eq
  intro i
  rw [Nat.testBit_land, Nat.testBit_lor]
  cases a.testBit i <;> simp

theorem testBit_missingBits (r c i : Nat) :
    (missingBits r c).testBit i = (r.testBit i && !(c.testBit i)) := by
  unfold missingBits
  rw [Nat.testBit_xor, Nat.testBit_land]
  cases r.testBit i <;> cases c.testBit i <;> rfl

theorem missing_of_widened (req mode : Nat) :
    bitsSubset (missingBits (mode ||| missingBits req mode) mode) req := by
  rw [bitsSubset_iff_testBit]
  intro i hi
  rw [testBit_missingBits, Nat.testBit_lor, testBit_missingBits] at hi
  rcases hm : mode.testBit i <;> rcases hr : req.testBit i <;> simp_all

theorem missingBits_self_zero (m : Nat) : missingBits m m = 0 := by
  unfold missingBits
  rw [Nat.and_self, Nat.xor_self]

/-- Claim C9: the walk only ever widens permissions.  For every visited file
with resulting bits post: the previous bits are a subset of post, and the
added bits (post AND NOT previous) are a subset of the computed required
set. -/
theorem claim_C9_widen (dir : String) (files : List PFile) (f : PFile)
    (post : Nat)
    (h : (f, post) ∈ (check_permissions dir files).2) :
    bitsSubset f.mode post
    ∧ bitsSubset (missingBits post f.mode) (required_permissions f) := by
  unfold check_permissions at h
  induction files with
  | nil => simp [check_permissions_walk] at h
  | cons g gs ih =>
    unfold check_permissions_walk at h
    have hself : ∀ x : PFile, (f, post) = (x, x.mode) →
        bitsSubset f.mode post
          ∧ bitsSubset (missingBits post f.mode) (required_permissions f) := by
      intro x hx
      injection hx with hf hp
      subst hf
      subst hp
      constructor
      · exact Nat.and_self f.mode
      · rw [missingBits_self_zero]
        unfold bitsSubset
        exact Nat.zero_and _
    split_ifs at h <;>
      simp only [List.mem_cons, List.mem_singleton] at h <;>
      rcases h with h | h
    · exact hself g h
    · exact ih h
    · exact hself g h
    · simp at h
    · exact hself g h
    · exact ih h
    · injection h with hf hp
      subst hf
      subst hp
      constructor
      · unfold bitsSubset
        exact land_lor_self _ _
      · exact missing_of_widened _ _
    · exact ih h
    · exact hself g h
    · exact ih h

/-- Witness for claim C9 at a concrete walk. -/
theorem claim_C9_witness :
    bitsSubset 420 438 ∧ bitsSubset (missingBits 438 420) 438 := by
  have h : ((⟨"/opt/kohya_ss/venv/lib", "notes.txt", false, 420, false⟩ : PFile),
      (438 : Nat)) ∈ (check_permissions "/opt/kohya_ss"
        [⟨"/opt/kohya_ss/venv/lib", "notes.txt", false, 420, false⟩]).2 := by
    decide
  have := claim_C9_widen "/opt/kohya_ss"
    [⟨"/opt/kohya_ss/venv/lib", "notes.txt", false, 420, false⟩]
    ⟨"/opt/kohya_ss/venv/lib", "notes.txt", false, 420, false⟩ 438 h
  simpa [required_permissions, strEndsWith] using this

/-- Claim C4 (amended): when the chmod of a visited file with missing bits
is denied, the walk STOPS and returns False if the file is not a
core-interpreter file (directory without "bin" and name without "python"),
while for core-interpreter files ("bin" in the directory or "python" in the
name) the denial is ignored and the walk continues with the remaining
files: the opposite of the claimed classification. -/
theorem claim_C4_amended (venvDir : String) (f : PFile) (fs : List PFile)
    (hskip : perm_skip_root venvDir f.root = false)
    (hmiss : missingBits (required_permissions f) f.mode ≠ 0)
    (hden : f.chmodDenied = true) :
    ((containsSubstring "bin".data f.root.data = false
        ∧ containsSubstring "python".data f.name.data = false) →
      check_permissions_walk venvDir (f :: fs) = (false, [(f, f.mode)]))
    ∧ ((containsSubstring "bin".data f.root.data = true
        ∨ containsSubstring "python".data f.name.data = true) →
      check_permissions_walk venvDir (f :: fs)
        = ((check_permissions_walk venvDir fs).1,
          (f, f.mode) :: (check_permissions_walk venvDir fs).2)) := by
  constructor
  · rintro ⟨h1, h2⟩
    unfold check_permissions_walk
    simp [hskip, hmiss, hden, h1, h2]
  · intro h
    rcases h with h | h <;>
      (conv_lhs => unfold check_permissions_walk) <;>
      simp [hskip, hmiss, hden, h]

/-- Claim C4 counterexample: a permission-denied file that is NOT part of
the core interpreter (no "bin" in its directory, no "python" in its name)
makes the routine stop and report False, and the remaining files are never
visited, refuting the claimed non-fatal handling. -/
theorem claim_C4_counterexample :
    (check_permissions "/opt/kohya_ss"
      [⟨"/opt/kohya_ss/venv/lib", "data.txt", false, 0, true⟩,
       ⟨"/opt/kohya_ss/venv/lib", "other.txt", false, 0, false⟩]).1 = false
    ∧ (check_permissions "/opt/kohya_ss"
      [⟨"/opt/kohya_ss/venv/lib", "data.txt", false, 0, true⟩,
       ⟨"/opt/kohya_ss/venv/lib", "other.txt", false, 0, false⟩]).2.length
        = 1 :=
  ⟨by decide, by decide⟩

/-- Witness for claim C4: both amended branches at concrete files. -/
theorem claim_C4_witness :
    check_permissions_walk "/opt/kohya_ss/venv"
        [⟨"/opt/kohya_ss/venv/lib", "data.txt", false, 0, true⟩]
      = (false, [(⟨"/opt/kohya_ss/venv/lib", "data.txt", false, 0, true⟩, 0)])
    ∧ check_permissions_walk "/opt/kohya_ss/venv"
        [⟨"/opt/kohya_ss/venv/bin", "activate", false, 0, true⟩]
      = (true, [(⟨"/opt/kohya_ss/venv/bin", "activate", false, 0, true⟩, 0)]) := by
  constructor
  · exact (claim_C4_amended "/opt/kohya_ss/venv"
      ⟨"/opt/kohya_ss/venv/lib", "data.txt", false, 0, true⟩ []
      (by decide) (by decide) (by decide)).1 ⟨by decide, by decide⟩
  · exact ((claim_C4_amended "/opt/kohya_ss/venv"
      ⟨"/opt/kohya_ss/venv/bin", "activate", false, 0, true⟩ []
      (by decide) (by decide) (by decide)).2 (Or.inl (by decide))).trans
      (by decide)

/-- Claim C5 (code bug evaluated): the linking guard equals the runpod flag
alone for both flag values, while the real container check returns False on
a host with no cgroup file and no dockerenv marker; so with runpod set on a
non-containerized host the symlink block still runs, contradicting the
claimed equivalence with runpod AND containerized. -/
theorem claim_C5_guard_bug :
    setup_file_links_linking_guard true = true
    ∧ setup_file_links_linking_guard false = false
    ∧ in_container none false = false :=
  ⟨rfl, rfl, rfl⟩

/-- Claim C7: when the marker file exists and neither update nor repair is
set, the installer returns at once without a single package operation; when
repair is set the installation logic always runs (its first package
operation, the pip self-update, is performed) even with the marker
present. -/
theorem claim_C7_skip (env : DepEnv) (update repair : Bool) :
    (env.flagFileExists = true → update = false → repair = false →
      install_python_dependencies env update repair = [])
    ∧ (repair = true →
      (install_python_dependencies env update repair).head?
        = some DepAction.pipSelfUpdate) := by
  constructor
  · intro h1 h2 h3
    unfold install_python_dependencies
    simp [h1, h2, h3]
  · intro hr
    unfold install_python_dependencies
    rw [hr]
    simp only [Bool.or_true, Bool.not_true, Bool.and_false,
      Bool.false_eq_true, if_false]
    cases env.requirementsLines with
    | none => rfl
    | some lines => split_ifs <;> rfl

/-- Witness for claim C7: with the marker present, no update and no repair
means no action at all, while repair still starts the installation logic. -/
theorem claim_C7_witness :
    install_python_dependencies envC7 false false = []
    ∧ (install_python_dependencies envC7 false true).head?
        = some DepAction.pipSelfUpdate :=
  ⟨(claim_C7_skip envC7 false false).1 rfl rfl rfl,
   (claim_C7_skip envC7 false true).2 rfl⟩

/-- Claim C8 counterexample: an interactive interrupt during the storage
countdown (or any stage other than the running gui child) reaches the
top-level handler and the process exits with status 1, not 0. -/
theorem claim_C8_counterexample :
    top_level_exit (check_storage_space_outcome true true) = 1
    ∧ (1 : Nat) ≠ 0 :=
  ⟨rfl, by decide⟩

/-- Claim C8 (amended): an interactive interrupt while the gui child
process is running is treated as a normal shutdown and exits with status 0;
an interrupt in any other stage escapes to the top-level handler, which
exits with status 1, so status 1 also covers interrupted runs outside the
gui phase (besides fatal configuration errors, missing prerequisites and
pipeline failures). -/
theorem claim_C8_amended (env : LaunchEnv) :
    (env.guiFileExists = true →
      (env.inContainer = true
        ∨ (env.venvExists = true ∧ env.venvPythonExists = true)) →
      top_level_exit (launch_kohya_gui env true) = 0)
    ∧ top_level_exit PyExit.keyboardInterrupt = 1 := by
  constructor
  · intro hg hpre
    rcases hpre with h | hpre
    · simp [launch_kohya_gui, hg, h, top_level_exit]
    · obtain ⟨h1, h2⟩ := hpre
      simp [launch_kohya_gui, hg, h1, h2, top_level_exit]
  · rfl

/-- Witness for claim C8 at a concrete launch environment. -/
theorem claim_C8_witness :
    top_level_exit (launch_kohya_gui ⟨false, true, true, true⟩ true) = 0 :=
  (claim_C8_amended ⟨false, true, true, true⟩).1 rfl (Or.inr ⟨rfl, rfl⟩)
